import Mathlib

/-!
Shallow embedding of the client-side data synchronization layer of the AV
frontend (the API client module): the in-memory request cache, the request
orchestrator `api`, the synchronous hydration helper `getFromCache`, the
`prefetch` helper, and the binary upload path `uploadMediaFile`.

The network is modelled explicitly: each call that may reach the network
receives the `Response` the server would produce for it.  A response carries
its HTTP status, its raw body text (as read by `res.text()`), and the result
of JSON-decoding its body (`res.json()`), where `none` means that decoding
fails (e.g. an empty body).  The mutable module-level `REQUEST_CACHE` is
modelled by explicit state passing: every operation takes the cache before
the call and the embedding returns the cache after it, together with the
call's outcome and the number of network requests it performed.
-/

/-- JSON values: the decoded response bodies held by the request cache.
JSON numbers are modelled as integers (the claims only involve `0`). -/
inductive Json where
  | null
  | bool (b : Bool)
  | num (n : Int)
  | str (s : String)
  | arr (elems : List Json)
  | obj (fields : List (String × Json))

/-- JavaScript truthiness of a JSON value, as used by the `|| null` coercion
in `getFromCache`: `null`, `false`, `0` and the empty string are falsy;
every array and object is truthy. -/
def Json.truthy : Json → Bool
  | .null => false
  | .bool b => b
  | .num n => n != 0
  | .str s => s != ""
  | .arr _ => true
  | .obj _ => true

/-- The module-level `REQUEST_CACHE` (a JavaScript `Map` from URL strings to
decoded bodies), modelled as an insertion-ordered association list. -/
abbrev Store := List (String × Json)

/-- Model of `Map.get`: the value stored under a key, or `none` (JS `undefined`). -/
def Store.get : Store → String → Option Json
  | [], _ => none
  | (k, v) :: rest, key => if k == key then some v else Store.get rest key

/-- Model of `Map.has`: key-existence check. -/
def Store.has (s : Store) (k : String) : Bool :=
  (Store.get s k).isSome

/-- Model of `Map.set`: unconditional overwrite of the entry for a key (JS `Map.set`
updates an existing entry in place and otherwise appends). -/
def Store.set : Store → String → Json → Store
  | [], key, v => [(key, v)]
  | (k, w) :: rest, key, v =>
    if k == key then (key, v) :: rest else (k, w) :: Store.set rest key v

/-- Model of `Map.clear`: the empty store. -/
def Store.clear : Store := []

/-- Whether the character list `pat` is a prefix of `s` (Boolean). -/
def charsHavePrefix : List Char → List Char → Bool
  | [], _ => true
  | _ :: _, [] => false
  | a :: as, b :: bs => a == b && charsHavePrefix as bs

/-- Whether the character list `pat` occurs contiguously inside `s`. -/
def charsHaveInfix : List Char → List Char → Bool
  | pat, [] => pat.isEmpty
  | pat, b :: rest => charsHavePrefix pat (b :: rest) || charsHaveInfix pat rest

/-- Model of JavaScript `String.prototype.includes`, used by the orchestrator
as `path.includes('operational-info')`. -/
def String.includes (s pat : String) : Bool :=
  charsHaveInfix pat.data s.data

/-- The configured backend base address: the environment setting
`VITE_API_BASE` with the fallback shown below; we model the default
configuration. -/
def API_BASE : String := "http://localhost:8000"

/-- Alias `BASE`, the client actually concatenates with request paths. -/
def BASE : String := API_BASE

/-- Resolution of the request method from the `init` options object:
`const method = init.method || 'GET'` (a missing or empty method string is
falsy, so it defaults to `'GET'`). -/
def methodOf : Option String → String
  | none => "GET"
  | some m => if m == "" then "GET" else m

/-- A network response as observed through `fetch`: HTTP status, raw body
text, and the JSON decoding of the body (`none` when `res.json()` would
reject, e.g. on an empty body). -/
structure Response where
  status : Nat
  text : String
  body : Option Json

/-- Model of `res.ok`: the fetch success flag, true exactly for statuses 200–299. -/
def Response.ok (r : Response) : Bool :=
  200 ≤ r.status && r.status ≤ 299

/-- The ways a call through the client can reject: an HTTP error
(`throw new Error('HTTP status: text')`, carrying the status code and the
response body text) or a JSON decode failure of `res.json()`. -/
inductive ApiError where
  | http (status : Nat) (body : String)
  | decode

/-- Outcome of one call through the client: the settled value of the returned
promise, the request cache after the call, and how many network requests the
call performed. -/
structure ApiResult where
  result : Except ApiError Json
  store : Store
  netCalls : Nat

/-- Function `getFromCache` (the hydration helper): synchronous cache read,
`REQUEST_CACHE.get(BASE + path) || null`.  A missing entry (JS `undefined`)
and any falsy cached value both coerce to `null`. -/
def getFromCache (cache : Store) (path : String) : Json :=
  match Store.get cache (BASE ++ path) with
  | some v => if v.truthy then v else Json.null
  | none => Json.null

/-- The network part of the orchestrator `api` (everything after the cache-hit
check): perform the fetch; on a non-success status return `null` when the
status is 404 and the path contains `'operational-info'` and otherwise throw
`HTTP status: text`; on success decode the JSON body, store it in the cache
for GET requests, and clear the whole cache for POST/PATCH/DELETE. -/
def apiNetwork (path method : String) (res : Response) (cache : Store) : ApiResult :=
  if !res.ok then
    if res.status == 404 && String.includes path "operational-info" then
      { result := .ok Json.null, store := cache, netCalls := 1 }
    else
      { result := .error (ApiError.http res.status res.text), store := cache, netCalls := 1 }
  else
    match res.body with
    | none => { result := .error ApiError.decode, store := cache, netCalls := 1 }
    | some data =>
      let s1 := if method == "GET" then Store.set cache (BASE ++ path) data else cache
      let s2 := if ["POST", "PATCH", "DELETE"].contains method then Store.clear else s1
      { result := .ok data, store := s2, netCalls := 1 }

/-- Function `api` (the core orchestrator): compute the URL `BASE + path` and the
method; for a GET whose URL is already cached return the cached value with no
network request; otherwise run the network flow `apiNetwork`. -/
def api (path : String) (initMethod : Option String) (res : Response) (cache : Store) : ApiResult :=
  let url := BASE ++ path
  let method := methodOf initMethod
  if method == "GET" && Store.has cache url then
    { result := .ok ((Store.get cache url).getD Json.null), store := cache, netCalls := 0 }
  else
    apiNetwork path method res cache

/-- Outcome of a `prefetch` call: what the caller of `prefetch` observes as
the returned/thrown value, the cache afterwards, and the number of network
requests performed. -/
structure PrefetchResult where
  returned : Except ApiError Unit
  store : Store
  netCalls : Nat

/-- Function `prefetch`: if `BASE + path` is already cached do nothing; otherwise run
the orchestrator's GET flow, discarding its value and swallowing any
rejection (`.catch(() => {})`).  The caller always gets `undefined` back. -/
def prefetch (path : String) (res : Response) (cache : Store) : PrefetchResult :=
  let url := BASE ++ path
  if Store.has cache url then
    { returned := .ok (), store := cache, netCalls := 0 }
  else
    let r := api path (some "GET") res cache
    { returned :=
        match r.result with
        | .ok _ => .ok ()
        | .error _ => .ok ()
      store := r.store
      netCalls := r.netCalls }

/-- Function `uploadMediaFile`: a raw multipart fetch to `/media/upload`, outside the
cache-aside protocol.  It never consults the cache; on a non-success status
it throws `HTTP status: text`; on success it clears the whole cache and then
returns `res.json()` (which may still reject on a non-JSON body). -/
def uploadMediaFile (businessId mediaType file : String) (res : Response)
    (cache : Store) : ApiResult :=
  if !res.ok then
    { result := .error (ApiError.http res.status res.text), store := cache, netCalls := 1 }
  else
    match res.body with
    | none => { result := .error ApiError.decode, store := Store.clear, netCalls := 1 }
    | some d => { result := .ok d, store := Store.clear, netCalls := 1 }

/-! ## General lemmas about the embedding -/

/-- Writing a key and reading it back yields the written value. -/
theorem Store.get_set_self (s : Store) (k : String) (v : Json) :
    Store.get (Store.set s k v) k = some v := by
  induction s with
  | nil => simp [Store.set, Store.get]
  | cons hd tl ih =>
    obtain ⟨k', w⟩ := hd
    cases hb : (k' == k) with
    | true => simp [Store.set, Store.get, hb]
    | false => simp [Store.set, Store.get, hb, ih]

/-- Hydrating any path from a cleared store yields `null`. -/
theorem getFromCache_clear (p : String) : getFromCache Store.clear p = Json.null := rfl

/-- A method contained in the mutating list is POST, PATCH or DELETE. -/
theorem mutating_cases {m : String}
    (hm : (["POST", "PATCH", "DELETE"].contains m) = true) :
    m = "POST" ∨ m = "PATCH" ∨ m = "DELETE" := by
  simp [List.contains] at hm
  rcases hm with h | h | h <;> simp [h]

/-- A mutating method is not the string GET. -/
theorem mutating_ne_get {m : String}
    (hm : (["POST", "PATCH", "DELETE"].contains m) = true) :
    (m == "GET") = false := by
  rcases mutating_cases hm with h | h | h <;> rw [h] <;> rfl

/-- Every run of the network flow performs exactly one network request. -/
theorem apiNetwork_netCalls (path method : String) (res : Response) (cache : Store) :
    (apiNetwork path method res cache).netCalls = 1 := by
  unfold apiNetwork
  cases h : res.ok with
  | false =>
    simp only [h, Bool.not_false, if_true]
    split <;> rfl
  | true =>
    simp only [h, Bool.not_true, Bool.false_eq_true, if_false]
    cases res.body <;> rfl

/-- When the cache-hit guard is false, `api` is exactly the network flow. -/
theorem api_miss (path : String) (init : Option String) (res : Response) (cache : Store)
    (h : (methodOf init == "GET" && Store.has cache (BASE ++ path)) = false) :
    api path init res cache = apiNetwork path (methodOf init) res cache := by
  simp [api, h]

/-! ## Claim C1: mutating calls clear the whole cache -/

/-- Claim C1, counterexample to the claim as stated: a DELETE to an
operational-info path whose response is 404 is a mutating call that resolves
successfully (to `null`, the spec's own "successful no-data result"), yet the
previously cached entry for an unrelated path is still returned by
`getFromCache` afterwards — the store was not cleared. -/
theorem mutating_optional404_keeps_cache :
    (api "/operational-info/by-business/7" (some "DELETE") ⟨404, "Not Found", none⟩
      [(BASE ++ "/services/1", Json.str "cached")]).result = Except.ok Json.null ∧
    getFromCache
      (api "/operational-info/by-business/7" (some "DELETE") ⟨404, "Not Found", none⟩
        [(BASE ++ "/services/1", Json.str "cached")]).store "/services/1" =
      Json.str "cached" :=
  ⟨rfl, rfl⟩

/-- Claim C1 (amended): after a mutating call (POST, PATCH or DELETE) through
`api` that resolves with a success-status response, the entire cache store is
cleared, so `getFromCache` returns `null` for every path, including paths
unrelated to the mutated resource. -/
theorem api_mutating_success_clears_store (path : String) (init : Option String)
    (res : Response) (cache : Store) (d : Json)
    (hm : (["POST", "PATCH", "DELETE"].contains (methodOf init)) = true)
    (hok : res.ok = true) (hbody : res.body = some d) :
    (api path init res cache).store = Store.clear ∧
    ∀ p, getFromCache (api path init res cache).store p = Json.null := by
  have hguard : (methodOf init == "GET" && Store.has cache (BASE ++ path)) = false := by
    rw [mutating_ne_get hm]; rfl
  rw [api_miss path init res cache hguard]
  have hst : (apiNetwork path (methodOf init) res cache).store = Store.clear := by
    unfold apiNetwork
    rw [hok, hbody, hm]
    rfl
  rw [hst]
  exact ⟨rfl, fun p => rfl⟩

/-- Claim C1 witness: a successful DELETE clears a concrete populated store. -/
theorem api_mutating_success_clears_store_witness :
    (api "/services/9" (some "DELETE") ⟨200, "{}", some Json.null⟩
      [(BASE ++ "/a", Json.num 3)]).store = Store.clear ∧
    getFromCache
      (api "/services/9" (some "DELETE") ⟨200, "{}", some Json.null⟩
        [(BASE ++ "/a", Json.num 3)]).store "/a" = Json.null := by
  have h := api_mutating_success_clears_store "/services/9" (some "DELETE")
    ⟨200, "{}", some Json.null⟩ [(BASE ++ "/a", Json.num 3)] Json.null
    (by decide) (by decide) rfl
  exact ⟨h.1, h.2 "/a"⟩

/-! ## Claim C2: cached GETs are served without the network -/

/-- Claim C2: a GET through `api` (whether the method was omitted, empty or
given as GET) whose derived key is present in the cache returns the cached
value, performs no network request, and leaves the store unchanged. -/
theorem api_get_cached (path : String) (init : Option String) (res : Response)
    (cache : Store) (v : Json)
    (hm : methodOf init = "GET")
    (hv : Store.get cache (BASE ++ path) = some v) :
    api path init res cache = ⟨Except.ok v, cache, 0⟩ := by
  simp [api, hm, Store.has, hv]

/-- Claim C2 witness: a concrete cached GET (default method, arbitrary failing
response available from the network, which is never consulted). -/
theorem api_get_cached_witness :
    api "/business/1" none ⟨500, "boom", none⟩ [(BASE ++ "/business/1", Json.str "x")] =
      ⟨Except.ok (Json.str "x"), [(BASE ++ "/business/1", Json.str "x")], 0⟩ :=
  api_get_cached "/business/1" none ⟨500, "boom", none⟩
    [(BASE ++ "/business/1", Json.str "x")] (Json.str "x") rfl rfl

/-! ## Claim C3: GET round-trip through the cache and hydrate -/

/-- Claim C3, counterexample to the claim as stated: the network returns the
scalar `false` as the decoded GET body; `api` resolves with it and stores it,
yet `getFromCache` afterwards returns `null`, not the stored value. -/
theorem get_false_body_hydrates_to_null :
    (api "/flag" (some "GET") ⟨200, "false", some (Json.bool false)⟩ []).result =
      Except.ok (Json.bool false) ∧
    Store.get (api "/flag" (some "GET") ⟨200, "false", some (Json.bool false)⟩ []).store
      (BASE ++ "/flag") = some (Json.bool false) ∧
    getFromCache (api "/flag" (some "GET") ⟨200, "false", some (Json.bool false)⟩ []).store
      "/flag" = Json.null ∧
    Json.null ≠ Json.bool false :=
  ⟨rfl, rfl, rfl, fun h => Json.noConfusion h⟩

/-- Claim C3 (amended): for every path and every truthy value the network
returns as the decoded body of a GET against an uncached key, `api` resolves
with that value, `getFromCache` afterwards returns the same value, and any
subsequent GET for the path performs no further network request. -/
theorem api_get_roundtrip_truthy (path : String) (res : Response) (cache : Store) (v : Json)
    (hmiss : Store.has cache (BASE ++ path) = false)
    (hok : res.ok = true) (hbody : res.body = some v) (htr : v.truthy = true) :
    (api path (some "GET") res cache).result = Except.ok v ∧
    getFromCache (api path (some "GET") res cache).store path = v ∧
    ∀ res2, (api path (some "GET") res2 (api path (some "GET") res cache).store).netCalls = 0 := by
  have hguard : (methodOf (some "GET") == "GET" && Store.has cache (BASE ++ path)) = false := by
    rw [hmiss]; rfl
  rw [api_miss path (some "GET") res cache hguard]
  have hmeth : methodOf (some "GET") = "GET" := rfl
  rw [hmeth]
  have hst : (apiNetwork path "GET" res cache).store = Store.set cache (BASE ++ path) v := by
    unfold apiNetwork
    rw [hok, hbody]
    rfl
  have hres : (apiNetwork path "GET" res cache).result = Except.ok v := by
    unfold apiNetwork
    rw [hok, hbody]
    rfl
  refine ⟨hres, ?_, ?_⟩
  · rw [hst]
    simp [getFromCache, Store.get_set_self, htr]
  · intro res2
    rw [hst]
    simp [api, methodOf, Store.has, Store.get_set_self]

/-- Claim C3 witness: a concrete truthy round trip through store and hydrate. -/
theorem api_get_roundtrip_truthy_witness :
    (api "/business/2" (some "GET") ⟨200, "", some (Json.str "acme")⟩ []).result =
      Except.ok (Json.str "acme") ∧
    getFromCache (api "/business/2" (some "GET") ⟨200, "", some (Json.str "acme")⟩ []).store
      "/business/2" = Json.str "acme" ∧
    (api "/business/2" (some "GET") ⟨404, "nf", none⟩
      (api "/business/2" (some "GET") ⟨200, "", some (Json.str "acme")⟩ []).store).netCalls = 0 := by
  have h := api_get_roundtrip_truthy "/business/2" ⟨200, "", some (Json.str "acme")⟩ []
    (Json.str "acme") rfl (by decide) rfl (by decide)
  exact ⟨h.1, h.2.1, h.2.2 ⟨404, "nf", none⟩⟩

/-! ## Claim C4: mutating calls with non-success status throw -/

/-- Claim C4, counterexample to the claim as stated: a DELETE to an
operational-info path whose response status is 404 does not fail — it
resolves to `null`, because the optional-404 check in the orchestrator does
not inspect the method.  So 404 on an optional path IS an exception, even
for mutating methods. -/
theorem mutating_delete_404_resolves_null :
    (api "/operational-info/by-business/1" (some "DELETE") ⟨404, "Not Found", none⟩ []).result =
      Except.ok Json.null ∧
    ∀ e, (api "/operational-info/by-business/1" (some "DELETE") ⟨404, "Not Found", none⟩ []).result ≠
      Except.error e :=
  ⟨rfl, fun _ h => Except.noConfusion h⟩

/-- Claim C4 (amended): a mutating call (POST, PATCH or DELETE) through `api`
whose response has a non-success status fails with an error carrying the
status code and the response body text, and leaves the store unchanged —
unless the status is 404 and the path contains operational-info, in which
case the call resolves to `null` instead. -/
theorem api_mutating_nonsuccess_throws (path : String) (init : Option String)
    (res : Response) (cache : Store)
    (hm : (["POST", "PATCH", "DELETE"].contains (methodOf init)) = true)
    (hok : res.ok = false)
    (hexc : (res.status == 404 && String.includes path "operational-info") = false) :
    api path init res cache =
      ⟨Except.error (ApiError.http res.status res.text), cache, 1⟩ := by
  have hguard : (methodOf init == "GET" && Store.has cache (BASE ++ path)) = false := by
    rw [mutating_ne_get hm]; rfl
  rw [api_miss path init res cache hguard]
  unfold apiNetwork
  rw [hok, hexc]
  rfl

/-- Claim C4 witness: a concrete PATCH with a 500 response throws HTTP 500
with the body text and leaves a populated store untouched. -/
theorem api_mutating_nonsuccess_throws_witness :
    api "/business/5" (some "PATCH") ⟨500, "boom", none⟩ [(BASE ++ "/a", Json.num 1)] =
      ⟨Except.error (ApiError.http 500 "boom"), [(BASE ++ "/a", Json.num 1)], 1⟩ :=
  api_mutating_nonsuccess_throws "/business/5" (some "PATCH") ⟨500, "boom", none⟩
    [(BASE ++ "/a", Json.num 1)] (by decide) (by decide) (by decide)

/-! ## Claim C5: optional-resource GET receiving 404 -/

/-- Claim C5: a GET through `api` on an uncached operational-info path whose
response status is 404 resolves to `null`, writes nothing to the cache, and a
subsequent GET for the same path consults the network again (one network
request, for any response it may get). -/
theorem api_get_optional404 (path : String) (res : Response) (cache : Store)
    (hinc : String.includes path "operational-info" = true)
    (h404 : res.status = 404)
    (hmiss : Store.has cache (BASE ++ path) = false) :
    (api path (some "GET") res cache).result = Except.ok Json.null ∧
    (api path (some "GET") res cache).store = cache ∧
    ∀ res2, (api path (some "GET") res2 (api path (some "GET") res cache).store).netCalls = 1 := by
  have hok : res.ok = false := by
    unfold Response.ok
    rw [h404]
    rfl
  have hguard : (methodOf (some "GET") == "GET" && Store.has cache (BASE ++ path)) = false := by
    rw [hmiss]; rfl
  rw [api_miss path (some "GET") res cache hguard]
  have hcall : apiNetwork path (methodOf (some "GET")) res cache =
      ⟨Except.ok Json.null, cache, 1⟩ := by
    unfold apiNetwork
    rw [hok, h404, hinc]
    rfl
  rw [hcall]
  refine ⟨rfl, rfl, fun res2 => ?_⟩
  rw [api_miss path (some "GET") res2 cache hguard]
  exact apiNetwork_netCalls path (methodOf (some "GET")) res2 cache

/-- Claim C5 witness: a concrete optional-404 GET, with the repeated network
request shown against a second 404 response. -/
theorem api_get_optional404_witness :
    (api "/operational-info/by-business/3" (some "GET") ⟨404, "nf", none⟩ []).result =
      Except.ok Json.null ∧
    (api "/operational-info/by-business/3" (some "GET") ⟨404, "nf", none⟩ []).store = [] ∧
    (api "/operational-info/by-business/3" (some "GET") ⟨404, "nf", none⟩
      (api "/operational-info/by-business/3" (some "GET") ⟨404, "nf", none⟩ []).store).netCalls = 1 := by
  have h := api_get_optional404 "/operational-info/by-business/3" ⟨404, "nf", none⟩ []
    (by decide) rfl rfl
  exact ⟨h.1, h.2.1, h.2.2 ⟨404, "nf", none⟩⟩

/-! ## Claim C6: prefetch contract -/

/-- Claim C6: `prefetch` on an already-cached path performs zero network
requests and leaves the cache unchanged; on an uncached path it performs
exactly one GET through the orchestrator; and in every case the caller
observes a normal return — no failure of the underlying GET ever escapes. -/
theorem prefetch_contract (path : String) (res : Response) (cache : Store) :
    (Store.has cache (BASE ++ path) = true →
      prefetch path res cache = ⟨Except.ok (), cache, 0⟩) ∧
    (Store.has cache (BASE ++ path) = false →
      (prefetch path res cache).netCalls = 1) ∧
    (prefetch path res cache).returned = Except.ok () := by
  refine ⟨fun h => ?_, fun h => ?_, ?_⟩
  · simp [prefetch, h]
  · have hguard : (methodOf (some "GET") == "GET" && Store.has cache (BASE ++ path)) = false := by
      rw [h]; rfl
    simp only [prefetch, h, Bool.false_eq_true, if_false]
    rw [api_miss path (some "GET") res cache hguard]
    exact apiNetwork_netCalls path (methodOf (some "GET")) res cache
  · cases hc : Store.has cache (BASE ++ path) with
    | true => simp [prefetch, hc]
    | false =>
      simp only [prefetch, hc, Bool.false_eq_true, if_false]
      cases (api path (some "GET") res cache).result <;> rfl

/-- Claim C6 witness: concrete cached and uncached prefetches, the latter
against a failing (500) response whose error is invisible to the caller. -/
theorem prefetch_contract_witness :
    prefetch "/c" ⟨500, "err", none⟩ [(BASE ++ "/c", Json.num 1)] =
      ⟨Except.ok (), [(BASE ++ "/c", Json.num 1)], 0⟩ ∧
    (prefetch "/c" ⟨500, "err", none⟩ []).netCalls = 1 ∧
    (prefetch "/c" ⟨500, "err", none⟩ []).returned = Except.ok () := by
  refine ⟨(prefetch_contract "/c" ⟨500, "err", none⟩ [(BASE ++ "/c", Json.num 1)]).1 rfl,
    (prefetch_contract "/c" ⟨500, "err", none⟩ []).2.1 rfl,
    (prefetch_contract "/c" ⟨500, "err", none⟩ []).2.2⟩

/-! ## Claim C7: key derivation is deterministic and shared -/

/-- Claim C7: cache-key derivation is the pure concatenation of the base
address with the path, so equal paths yield equal keys; and the orchestrator,
`prefetch` and the hydrate helper agree on it: after a successful GET for an
uncached path, the stored entry sits under exactly that key, `prefetch` for
the same path finds it cached (zero network requests), and `getFromCache`
for the same path returns the stored (truthy) value. -/
theorem key_derivation_shared (P1 P2 path : String) (res res2 : Response)
    (cache : Store) (v : Json)
    (hP : P1 = P2)
    (hmiss : Store.has cache (BASE ++ path) = false)
    (hok : res.ok = true) (hbody : res.body = some v) :
    BASE ++ P1 = BASE ++ P2 ∧
    Store.get (api path (some "GET") res cache).store (BASE ++ path) = some v ∧
    (prefetch path res2 (api path (some "GET") res cache).store).netCalls = 0 ∧
    (v.truthy = true → getFromCache (api path (some "GET") res cache).store path = v) := by
  have hguard : (methodOf (some "GET") == "GET" && Store.has cache (BASE ++ path)) = false := by
    rw [hmiss]; rfl
  have hst : (api path (some "GET") res cache).store = Store.set cache (BASE ++ path) v := by
    rw [api_miss path (some "GET") res cache hguard]
    unfold apiNetwork
    rw [hok, hbody]
    rfl
  refine ⟨by rw [hP], ?_, ?_, fun htr => ?_⟩
  · rw [hst, Store.get_set_self]
  · rw [hst]
    simp [prefetch, Store.has, Store.get_set_self]
  · rw [hst]
    simp [getFromCache, Store.get_set_self, htr]

/-- Claim C7 witness: a concrete GET stores under the shared key; hydrate and
prefetch both find it. -/
theorem key_derivation_shared_witness :
    Store.get (api "/media/7" (some "GET") ⟨200, "", some (Json.num 7)⟩ []).store
      (BASE ++ "/media/7") = some (Json.num 7) ∧
    (prefetch "/media/7" ⟨500, "e", none⟩
      (api "/media/7" (some "GET") ⟨200, "", some (Json.num 7)⟩ []).store).netCalls = 0 ∧
    getFromCache (api "/media/7" (some "GET") ⟨200, "", some (Json.num 7)⟩ []).store
      "/media/7" = Json.num 7 := by
  have h := key_derivation_shared "/media/7" "/media/7" "/media/7"
    ⟨200, "", some (Json.num 7)⟩ ⟨500, "e", none⟩ [] (Json.num 7) rfl rfl (by decide) rfl
  exact ⟨h.2.1, h.2.2.1, h.2.2.2 (by decide)⟩

/-! ## Claim C8: mutating calls return the decoded body -/

/-- Claim C8, counterexample to the claim as stated: a DELETE whose success
response carries no JSON body does not complete successfully — `res.json()`
fails, so the call rejects with a decode error instead of resolving. -/
theorem delete_empty_body_rejects :
    (api "/services/3" (some "DELETE") ⟨200, "", none⟩ []).result =
      Except.error ApiError.decode ∧
    ∀ v, (api "/services/3" (some "DELETE") ⟨200, "", none⟩ []).result ≠ Except.ok v :=
  ⟨rfl, fun _ h => Except.noConfusion h⟩

/-- Claim C8 (amended): a mutating call (POST, PATCH or DELETE) through `api`
whose response has a success status and a body that decodes as JSON resolves
with the decoded body; a deletion whose response carries no JSON body instead
rejects with a decode error. -/
theorem api_mutating_returns_body (path : String) (init : Option String)
    (res : Response) (cache : Store) (d : Json)
    (hm : (["POST", "PATCH", "DELETE"].contains (methodOf init)) = true)
    (hok : res.ok = true) (hbody : res.body = some d) :
    (api path init res cache).result = Except.ok d ∧
    ∀ res2 cache2, res2.ok = true → res2.body = none →
      (api path init res2 cache2).result = Except.error ApiError.decode := by
  have hne := mutating_ne_get hm
  have hguard : (methodOf init == "GET" && Store.has cache (BASE ++ path)) = false := by
    rw [hne]; rfl
  constructor
  · rw [api_miss path init res cache hguard]
    unfold apiNetwork
    rw [hok, hbody]
    rfl
  · intro res2 cache2 hok2 hbody2
    have hguard2 : (methodOf init == "GET" && Store.has cache2 (BASE ++ path)) = false := by
      rw [hne]; rfl
    rw [api_miss path init res2 cache2 hguard2]
    unfold apiNetwork
    rw [hok2, hbody2]
    rfl

/-- Claim C8 witness: a successful DELETE with a JSON body resolves with it,
and the same DELETE with an empty body rejects with a decode error. -/
theorem api_mutating_returns_body_witness :
    (api "/services/4" (some "DELETE") ⟨200, "{}", some (Json.obj [])⟩ []).result =
      Except.ok (Json.obj []) ∧
    (api "/services/4" (some "DELETE") ⟨204, "", none⟩ []).result =
      Except.error ApiError.decode := by
  have h := api_mutating_returns_body "/services/4" (some "DELETE")
    ⟨200, "{}", some (Json.obj [])⟩ [] (Json.obj []) (by decide) (by decide) rfl
  exact ⟨h.1, h.2 ⟨204, "", none⟩ [] (by decide) rfl⟩

/-! ## Claim C9: the binary upload path is outside the cache-aside protocol -/

/-- Claim C9: `uploadMediaFile` always performs its network request whatever
the cache holds, its outcome never depends on the cache, its result is never
stored (afterwards the store is either unchanged or empty), on success it
clears the entire store, and on a non-success status it fails with the status
code and body text without clearing the store. -/
theorem uploadMediaFile_contract (b m f : String) (res : Response) (cache cache2 : Store) :
    (uploadMediaFile b m f res cache).netCalls = 1 ∧
    (uploadMediaFile b m f res cache).result = (uploadMediaFile b m f res cache2).result ∧
    ((uploadMediaFile b m f res cache).store = cache ∨
      (uploadMediaFile b m f res cache).store = Store.clear) ∧
    (res.ok = true → (uploadMediaFile b m f res cache).store = Store.clear) ∧
    (res.ok = false → uploadMediaFile b m f res cache =
      ⟨Except.error (ApiError.http res.status res.text), cache, 1⟩) := by
  unfold uploadMediaFile
  cases hok : res.ok with
  | false =>
    refine ⟨rfl, rfl, Or.inl rfl, fun h => ?_, fun _ => rfl⟩
    exact absurd h (by simp)
  | true =>
    cases hb : res.body with
    | none => exact ⟨rfl, rfl, Or.inr rfl, fun _ => rfl, fun h => absurd h (by simp)⟩
    | some d => exact ⟨rfl, rfl, Or.inr rfl, fun _ => rfl, fun h => absurd h (by simp)⟩

/-- Claim C9 witness: a concrete successful upload clears a populated store,
and a concrete failed upload reports HTTP 500 with the body text while the
store keeps its entry. -/
theorem uploadMediaFile_contract_witness :
    (uploadMediaFile "1" "image" "f.png" ⟨200, "", some (Json.str "m")⟩
      [(BASE ++ "/a", Json.num 1)]).store = Store.clear ∧
    uploadMediaFile "1" "image" "f.png" ⟨500, "err", none⟩ [(BASE ++ "/a", Json.num 1)] =
      ⟨Except.error (ApiError.http 500 "err"), [(BASE ++ "/a", Json.num 1)], 1⟩ := by
  refine ⟨(uploadMediaFile_contract "1" "image" "f.png" ⟨200, "", some (Json.str "m")⟩
      [(BASE ++ "/a", Json.num 1)] []).2.2.2.1 (by decide),
    (uploadMediaFile_contract "1" "image" "f.png" ⟨500, "err", none⟩
      [(BASE ++ "/a", Json.num 1)] []).2.2.2.2 (by decide)⟩

/-! ## Claim C10: falsy cached entries hydrate as null -/

/-- Claim C10: when the cached entry for a path is a falsy value (`null`,
`false`, `0` or the empty string), `getFromCache` returns `null` even though
the entry is present in the store, so callers cannot distinguish a cached
falsy scalar from a cache miss. -/
theorem getFromCache_falsy_is_null (path : String) (cache : Store) (v : Json)
    (hget : Store.get cache (BASE ++ path) = some v)
    (hfalsy : v.truthy = false) :
    getFromCache cache path = Json.null ∧ Store.has cache (BASE ++ path) = true := by
  constructor
  · unfold getFromCache
    rw [hget]
    show (if v.truthy = true then v else Json.null) = Json.null
    rw [hfalsy]
    rfl
  · unfold Store.has
    rw [hget]
    rfl

/-- Claim C10 witness: a cached `0` is present in the store yet hydrates to
`null`. -/
theorem getFromCache_falsy_is_null_witness :
    getFromCache [(BASE ++ "/n", Json.num 0)] "/n" = Json.null ∧
    Store.has [(BASE ++ "/n", Json.num 0)] (BASE ++ "/n") = true :=
  getFromCache_falsy_is_null "/n" [(BASE ++ "/n", Json.num 0)] (Json.num 0) rfl (by decide)
